import Mathlib

/-!
# Verification of the AltIMU-10v5 sensor-fusion core

A shallow embedding, in Lean 4, of the sensor-fusion layer of
`src/python/AltIMU-10v5/altimu.py` together with the vector helpers of
`src/python/AltIMU-10v5/vector_functions.py`, and proofs of the behavioural
properties claimed for it.

Modelling conventions:

* Python floats are modelled by exact rationals (`ℚ`); the transcendental
  tilt-angle computation (`math.atan2`, `math.pi`, `math.degrees`) is modelled
  over the reals (`ℝ`) with the mathematical `atan2`.
* A possibly-absent per-axis value (`None` in Python) is `Option ℚ`.
* Python exceptions are modelled by an error type `PyErr`; a stateful method
  returns `AltIMUState × Except PyErr α`, the first component being the state
  of the object after the call (Python object mutations performed before an
  exception is raised persist, so the state is returned on the error path too).
* The three covariance attributes `kalmanXP`, `kalmanYP`, `kalmanZP` are list
  *references*: `__init__` executes the chained assignment
  `self.kalmanXP = self.kalmanYP = self.kalmanZP = [0.0, 0.0, 0.0, 0.0]`,
  which creates a single list object referenced by all three attributes, and
  no later statement ever rebinds the attributes (`_calculateKalmanAngle`
  mutates the list in place and its return value is discarded).  The state
  therefore carries an explicit heap of list objects and three indices.
* Sensor hardware is an environment: the raw 16-bit register contents are
  parameters (`Fin 3 → ℤ`); `getGyroscopeRaw`/`getAccelerometerRaw` mask them
  by the requested-axis booleans, returning `None` for an axis that is not
  requested (auto-increment read path of `LSM6DS33._getIMUSensorRaw`).
-/

set_option linter.unusedVariables false

/-- Python exceptions that the fusion core can raise:
`exception msg` models `raise(Exception(msg))`, `typeError` an arithmetic
operation on `None` (e.g. `None * 0.05`), `nameError n` a reference to an
undefined name `n`. -/
inductive PyErr where
  | exception : String → PyErr
  | typeError : PyErr
  | nameError : String → PyErr
deriving DecidableEq, Repr

/-- One Python list object `[P00, P01, P10, P11]` holding a 2×2 Kalman error
covariance matrix (`altimu.py` stores it as a flat 4-element list). -/
structure KMat where
  p00 : ℚ
  p01 : ℚ
  p10 : ℚ
  p11 : ℚ
deriving DecidableEq, Repr

/-- The fusion-relevant state of an `AltIMU` object.  The barometer /
magnetometer / temperature flags and sensor handles take no part in the
fusion methods and are omitted.  `heap` holds the covariance list objects;
`kalmanXPRef`, `kalmanYPRef`, `kalmanZPRef` are the references stored in the
attributes of the same names. -/
structure AltIMUState where
  heap : List KMat
  kalmanXPRef : ℕ
  kalmanYPRef : ℕ
  kalmanZPRef : ℕ
  kalmanBias : Fin 3 → ℚ
  kalmanAngles : Fin 3 → Option ℚ
  complementaryAngles : Fin 3 → Option ℚ
  gyrAngles : List ℚ
  accelerometer : Bool
  gyroscope : Bool
  initFiltersFromAccel : Bool

namespace AltIMU

/-- Source constant `GYRO_GAIN = 0.0175` (gyroscope dps/LSB for 500 dps full scale). -/
def GYRO_GAIN : ℚ := 175 / 10000

/-- Source constant `C_FILTER_CONST = 0.98` (complementary filter constant). -/
def C_FILTER_CONST : ℚ := 98 / 100

/-- Source constant `Q_ANGLE = 0.01` (Kalman process noise, angle). -/
def Q_ANGLE : ℚ := 1 / 100

/-- Source constant `Q_GYRO = 0.0003` (Kalman process noise, gyro bias). -/
def Q_GYRO : ℚ := 3 / 10000

/-- Source constant `R_ANGLE = 0.01` (Kalman measurement noise). -/
def R_ANGLE : ℚ := 1 / 100

/-- Embeds `AltIMU.__init__`: sensor flags `False`, `gyrAngles = []`,
`kalmanBias = [0.0, 0.0, 0.0]`, `kalmanAngles = [0.0, 0.0, 0.0]`,
`complementaryAngles = [0.0, 0.0, 0.0]`, and the chained assignment
`self.kalmanXP = self.kalmanYP = self.kalmanZP = [0.0, 0.0, 0.0, 0.0]`
allocating ONE list object referenced by all three attributes.
(`initFiltersFromAccel` is first assigned in `enable`; it is stored here as
`false`, and no method reads it before `enable` sets it.) -/
def init : AltIMUState where
  heap := [⟨0, 0, 0, 0⟩]
  kalmanXPRef := 0
  kalmanYPRef := 0
  kalmanZPRef := 0
  kalmanBias := fun _ => 0
  kalmanAngles := fun _ => some 0
  complementaryAngles := fun _ => some 0
  gyrAngles := []
  accelerometer := false
  gyroscope := false
  initFiltersFromAccel := false

/-- Embeds `calibrateGyroAngles(xCal, yCal, zCal)`:
`self.gyrAngles = [xCal, yCal, zCal]`. -/
def calibrateGyroAngles (s : AltIMUState) (xCal yCal zCal : ℚ) : AltIMUState :=
  { s with gyrAngles := [xCal, yCal, zCal] }

/-- The fusion-relevant part of `enable`: sets the sensor flags that were
requested (a flag is only ever set to `True`, never cleared), stores
`initFiltersFromAccel`, calibrates the gyro angles to zero when the gyroscope
is enabled, and finally clears `initFiltersFromAccel` when the accelerometer
is not enabled. -/
def enable (s : AltIMUState) (accelerometer gyroscope initFiltersFromAccel : Bool) :
    AltIMUState :=
  let s1 : AltIMUState :=
    { s with
      accelerometer := s.accelerometer || accelerometer
      gyroscope := s.gyroscope || gyroscope
      initFiltersFromAccel := initFiltersFromAccel }
  let s2 := if s1.gyroscope then calibrateGyroAngles s1 0 0 0 else s1
  if !s2.accelerometer then { s2 with initFiltersFromAccel := false } else s2

/-- Embeds `LSM6DS33._getIMUSensorRaw` (auto-increment read path): the raw register
value of each requested axis, `None` for an axis that is not requested.
`raw` is the environment: the current contents of the output
registers, combined to signed 16-bit values. -/
def getSensorRaw (raw : Fin 3 → ℤ) (x y z : Bool) : Fin 3 → Option ℤ :=
  fun i =>
    if (if i = 0 then x else if i = 1 then y else z) then some (raw i) else none

/-- Embeds `getGyroRotationRates(x, y, z)`: all-`None` unless the gyroscope is
enabled and at least one axis is requested; otherwise each present raw value
scaled by `GYRO_GAIN` (`gyrRawDimension * self.GYRO_GAIN`). Pure: the method
mutates nothing. -/
def getGyroRotationRates (s : AltIMUState) (gyrRaw : Fin 3 → ℤ) (x y z : Bool) :
    Fin 3 → Option ℚ :=
  if !(s.gyroscope && (x || y || z)) then fun _ => none
  else fun i => (getSensorRaw gyrRaw x y z i).map fun r => (r : ℚ) * GYRO_GAIN

/-- The test `gyrRates is None` in the list comprehension of
`trackGyroAngles`.  `gyrRates` is the 3-tuple returned by
`getGyroRotationRates`, never the `None` object itself, so the test is
always false — the comprehension always takes the
`self.gyrAngles[i] + gyrRates[i] * deltaT` branch. -/
def gyrRatesIsNone (gyrRates : Fin 3 → Option ℚ) : Bool := false

/-- One element of the `trackGyroAngles` comprehension:
`self.gyrAngles[i] if gyrRates is None else self.gyrAngles[i] + gyrRates[i] * deltaT`.
When the (always-false) tuple test fails and `gyrRates[i]` is `None`, the
expression `None * deltaT` raises a `TypeError`. -/
def trackStep (gyrRates : Fin 3 → Option ℚ) (angle : ℚ) (rate : Option ℚ)
    (deltaT : ℚ) : Except PyErr ℚ :=
  if gyrRatesIsNone gyrRates then .ok angle
  else
    match rate with
    | some r => .ok (angle + r * deltaT)
    | none => .error .typeError

/-- Embeds `trackGyroAngles(x, y, z, deltaT)`: asserts that the angles were
calibrated (`len(self.gyrAngles) == 3`), returns the stored angles unchanged
when the gyroscope is disabled or no axis is requested, and otherwise
rebuilds `self.gyrAngles` from the comprehension.  The comprehension is
evaluated left to right; if an element raises, the assignment to
`self.gyrAngles` never happens and the state is unchanged. -/
def trackGyroAngles (s : AltIMUState) (gyrRaw : Fin 3 → ℤ) (x y z : Bool)
    (deltaT : ℚ) : AltIMUState × Except PyErr (List ℚ) :=
  if s.gyrAngles.length ≠ 3 then
    (s, .error (.exception "Gyroscope must be calibrated before angle tracking!"))
  else if !(s.gyroscope && (x || y || z)) then (s, .ok s.gyrAngles)
  else
    let gyrRates := getGyroRotationRates s gyrRaw x y z
    let comp : Except PyErr (List ℚ) := do
      let a0 ← trackStep gyrRates (s.gyrAngles.getD 0 0) (gyrRates 0) deltaT
      let a1 ← trackStep gyrRates (s.gyrAngles.getD 1 0) (gyrRates 1) deltaT
      let a2 ← trackStep gyrRates (s.gyrAngles.getD 2 0) (gyrRates 2) deltaT
      pure [a0, a1, a2]
    match comp with
    | .error e => (s, .error e)
    | .ok l => ({ s with gyrAngles := l }, .ok l)

/-- Embeds `_calculateKalmanAngle(kalmanP, accelAngles, axis, deltaT)`.  `kalmanPRef`
is the reference to the covariance list object passed as `kalmanP`; the
statements below mutate that object in place, in source order:

    kalmanP[0] += -deltaT * (kalmanP[1] + kalmanP[2]) + Q_ANGLE * deltaT
    kalmanP[1] += -deltaT * kalmanP[3]
    kalmanP[2] += -deltaT * kalmanP[3]
    kalmanP[3] += Q_GYRO * deltaT
    kalY = accelAngles[axis] - self.kalmanAngles[axis]
    kalS = kalmanP[0] + R_ANGLE
    kal0 = kalmanP[0] / kalS
    kal1 = kalmanP[2] / kalS
    self.kalmanAngles[axis] += kal0 * kalY
    self.kalmanBias[axis] += kal1 * kalY
    kalmanP[0] -= kal0 * kalmanP[0]
    kalmanP[1] -= kal0 * kalmanP[1]
    kalmanP[2] -= kal1 * kalmanP[0]   -- reads the ALREADY-decremented P00
    kalmanP[3] -= kal1 * kalmanP[1]   -- reads the ALREADY-decremented P01

The subtraction computing `kalY` raises a `TypeError` when either operand is
`None`; the four predict-step mutations performed before it persist.  (Python
raises `ZeroDivisionError` when `kalS == 0.0`; rational division yields `0`
there — every evaluation below has `kalS ≠ 0`.) -/
def calculateKalmanAngle (s : AltIMUState) (kalmanPRef : ℕ)
    (accelAngles : Fin 3 → Option ℚ) (axis : Fin 3) (deltaT : ℚ) :
    AltIMUState × Except PyErr Unit :=
  let P := s.heap.getD kalmanPRef ⟨0, 0, 0, 0⟩
  let P := { P with p00 := P.p00 + (-deltaT * (P.p01 + P.p10) + Q_ANGLE * deltaT) }
  let P := { P with p01 := P.p01 + -deltaT * P.p11 }
  let P := { P with p10 := P.p10 + -deltaT * P.p11 }
  let P := { P with p11 := P.p11 + Q_GYRO * deltaT }
  let s := { s with heap := s.heap.set kalmanPRef P }
  match accelAngles axis, s.kalmanAngles axis with
  | some acc, some ang =>
      let kalY := acc - ang
      let kalS := P.p00 + R_ANGLE
      let kal0 := P.p00 / kalS
      let kal1 := P.p10 / kalS
      let s :=
        { s with
          kalmanAngles := Function.update s.kalmanAngles axis (some (ang + kal0 * kalY))
          kalmanBias := Function.update s.kalmanBias axis (s.kalmanBias axis + kal1 * kalY) }
      let P := { P with p00 := P.p00 - kal0 * P.p00 }
      let P := { P with p01 := P.p01 - kal0 * P.p01 }
      let P := { P with p10 := P.p10 - kal1 * P.p00 }
      let P := { P with p11 := P.p11 - kal1 * P.p01 }
      ({ s with heap := s.heap.set kalmanPRef P }, .ok ())
  | _, _ => (s, .error .typeError)

/-- One element of the gyroscope comprehension in `getKalmanAngles`:
`None if gyrRates[i] is None else self.kalmanAngles[i] + (gyrRates[i] - self.kalmanBias[i]) * deltaT`.
Raises a `TypeError` when the stored angle is `None` while the rate is
present. -/
def kalmanGyroStep (angle : Option ℚ) (rate : Option ℚ) (bias deltaT : ℚ) :
    Except PyErr (Option ℚ) :=
  match rate with
  | none => .ok none
  | some r =>
      match angle with
      | some a => .ok (some (a + (r - bias) * deltaT))
      | none => .error .typeError

/-- The body of `getKalmanAngles` after the enable guard and the one-shot
accelerometer seeding (lines 298–312 of `altimu.py`), for the full-axis
request `x = y = z = True` (the default; a partial request makes the internal
`getAccelerometerAngles` call reach `atan2` with a `None` argument and raise
a `TypeError` before this body runs, a path none of the properties below
need).  `accelAngles` is the value returned by the internal
`getAccelerometerAngles` call; its entries are transcendental reals in the
source and are therefore parameters of the rational model. -/
def kalmanBody (s : AltIMUState) (gyrRaw : Fin 3 → ℤ)
    (accelAngles : Fin 3 → Option ℚ) (deltaT : ℚ) :
    AltIMUState × Except PyErr (Fin 3 → Option ℚ) :=
  let gyrRates := getGyroRotationRates s gyrRaw true true true
  match kalmanGyroStep (s.kalmanAngles 0) (gyrRates 0) (s.kalmanBias 0) deltaT with
  | .error e => (s, .error e)
  | .ok a0 =>
  match kalmanGyroStep (s.kalmanAngles 1) (gyrRates 1) (s.kalmanBias 1) deltaT with
  | .error e => (s, .error e)
  | .ok a1 =>
  match kalmanGyroStep (s.kalmanAngles 2) (gyrRates 2) (s.kalmanBias 2) deltaT with
  | .error e => (s, .error e)
  | .ok a2 =>
  let s := { s with kalmanAngles := fun i => if i = 0 then a0 else if i = 1 then a1 else a2 }
  match calculateKalmanAngle s s.kalmanXPRef accelAngles 0 deltaT with
  | (s, .error e) => (s, .error e)
  | (s, .ok _) =>
  match calculateKalmanAngle s s.kalmanYPRef accelAngles 1 deltaT with
  | (s, .error e) => (s, .error e)
  | (s, .ok _) =>
  match calculateKalmanAngle s s.kalmanZPRef accelAngles 2 deltaT with
  | (s, .error e) => (s, .error e)
  | (s, .ok _) => (s, .ok s.kalmanAngles)

/-- Embeds `getKalmanAngles(deltaT)` (full-axis request): returns `(None, None, None)`
without touching any state unless both the accelerometer and the gyroscope
are enabled; otherwise consumes the one-shot `initFiltersFromAccel` flag,
seeding `self.kalmanAngles = list(accelAngles)`, and runs the filter body. -/
def getKalmanAngles (s : AltIMUState) (gyrRaw : Fin 3 → ℤ)
    (accelAngles : Fin 3 → Option ℚ) (deltaT : ℚ) :
    AltIMUState × Except PyErr (Fin 3 → Option ℚ) :=
  if !(s.accelerometer && s.gyroscope) then (s, .ok fun _ => none)
  else if s.initFiltersFromAccel then
    kalmanBody { s with kalmanAngles := accelAngles, initFiltersFromAccel := false }
      gyrRaw accelAngles deltaT
  else kalmanBody s gyrRaw accelAngles deltaT

/-- Embeds `getComplementaryAngles(deltaT)` (full-axis request): returns
`(None, None, None)` without touching any state unless both sensors are
enabled; otherwise consumes the one-shot `initFiltersFromAccel` flag, seeding
`self.complementaryAngles = list(accelAngles)`, and then evaluates the filter
comprehension

    [None if (gyrRates[i] is None or accAngles[i] is None)
     else self.C_FILTER_CONST * (self.complementaryAngles[i] + gyrRates[i] * deltaT)
          + (1 - self.C_FILTER_CONST) * accAngles[i]
     for i in range(3)]

whose `else` branch references the undefined name `accAngles` (the local
variable is `accelAngles`).  Past the guard the gyroscope is enabled and all
axes are requested, so `gyrRates[0] is None` is false, the first element
evaluates its `else` branch, and the call raises
a `NameError` naming `accAngles`; the assignment to
`self.complementaryAngles` never happens, so only the seeding (if any)
survives. -/
def getComplementaryAngles (s : AltIMUState) (gyrRaw : Fin 3 → ℤ)
    (accelAngles : Fin 3 → Option ℚ) (deltaT : ℚ) :
    AltIMUState × Except PyErr (Fin 3 → Option ℚ) :=
  if !(s.accelerometer && s.gyroscope) then (s, .ok fun _ => none)
  else if s.initFiltersFromAccel then
    ({ s with complementaryAngles := accelAngles, initFiltersFromAccel := false },
      .error (.nameError "accAngles"))
  else (s, .error (.nameError "accAngles"))

end AltIMU

namespace VectorFunctions

/-- Python multiplication of possibly-absent numbers: `None` as an operand
raises a `TypeError`. -/
def pyMul (a b : Option ℚ) : Except PyErr ℚ :=
  match a, b with
  | some x, some y => .ok (x * y)
  | _, _ => .error .typeError

/-- The component validation shared by `vectorCross` and `vectorDot`:

    assert((dimension is not None) and isinstance(dimension, (int, long, float))
           for dimension in vectorA)

asserts a *generator expression object*, which is always truthy in Python —
the components are never examined, and the assert never fails, whatever the
vector contains. -/
def componentCheck (vectorA vectorB : List (Option ℚ)) : Bool := true

/-- The component validation the surrounding code intends (per its comment
`Check if all vector dimensions are set` and the message of the exception it
would raise): every component present and numeric. -/
def componentCheckIntended (v : List (Option ℚ)) : Bool := v.all Option.isSome

/-- Embeds `vectorCross(vectorA, vectorB)`: asserts both inputs are 3-element
(raising the dimension exception), runs the
(vacuous) component validation, then computes the three components in source
order; a multiplication with a `None` operand raises a `TypeError`. -/
def vectorCross (vectorA vectorB : List (Option ℚ)) :
    Except PyErr (ℚ × ℚ × ℚ) :=
  if ¬(vectorA.length = 3 ∧ vectorB.length = 3) then
    .error (.exception "Input vectors have to be 3-dimensional")
  else if componentCheck vectorA vectorB = false then
    .error (.exception "At least one dimension is not a number for one of the input vectors")
  else do
    let outX := (← pyMul (vectorA.getD 1 none) (vectorB.getD 2 none))
              - (← pyMul (vectorA.getD 2 none) (vectorB.getD 1 none))
    let outY := (← pyMul (vectorA.getD 2 none) (vectorB.getD 0 none))
              - (← pyMul (vectorA.getD 0 none) (vectorB.getD 2 none))
    let outZ := (← pyMul (vectorA.getD 0 none) (vectorB.getD 1 none))
              - (← pyMul (vectorA.getD 1 none) (vectorB.getD 0 none))
    pure (outX, outY, outZ)

/-- Embeds `vectorDot(vectorA, vectorB)`: same arity assertion and (vacuous)
component validation, then the sum of componentwise products in source
order. -/
def vectorDot (vectorA vectorB : List (Option ℚ)) : Except PyErr ℚ :=
  if ¬(vectorA.length = 3 ∧ vectorB.length = 3) then
    .error (.exception "Input vectors have to be 3-dimensional")
  else if componentCheck vectorA vectorB = false then
    .error (.exception "At least one dimension is not a number for one of the input vectors")
  else do
    pure ((← pyMul (vectorA.getD 0 none) (vectorB.getD 0 none))
        + (← pyMul (vectorA.getD 1 none) (vectorB.getD 1 none))
        + (← pyMul (vectorA.getD 2 none) (vectorB.getD 2 none)))

end VectorFunctions

namespace AltIMU

/-- The mathematical two-argument arctangent, the exact-real semantics of
`math.atan2(y, x)` (C99 `atan2`), with `atan2 0 0 = 0` exactly as
`math.atan2(0.0, 0.0)` returns `0.0`. -/
noncomputable def atan2 (y x : ℝ) : ℝ :=
  if 0 < x then Real.arctan (y / x)
  else if x < 0 then
    (if 0 ≤ y then Real.arctan (y / x) + Real.pi else Real.arctan (y / x) - Real.pi)
  else if 0 < y then Real.pi / 2
  else if y < 0 then -(Real.pi / 2)
  else 0

/-- Embeds `math.degrees(x) = x * (180 / pi)` in exact real arithmetic. -/
noncomputable def degrees (x : ℝ) : ℝ := x * (180 / Real.pi)

/-- Embeds `accelXAngle = math.degrees(math.atan2(accelYRaw, accelZRaw) + math.pi)`
from `getAccelerometerAngles` (enabled, full-axis request). -/
noncomputable def accelXAngle (accelRaw : Fin 3 → ℤ) : ℝ :=
  degrees (atan2 (accelRaw 1) (accelRaw 2) + Real.pi)

/-- Embeds `accelYAngle = math.degrees(math.atan2(accelXRaw, accelZRaw) + math.pi)`. -/
noncomputable def accelYAngle (accelRaw : Fin 3 → ℤ) : ℝ :=
  degrees (atan2 (accelRaw 0) (accelRaw 2) + Real.pi)

/-- Embeds `accelZAngle = math.degrees(math.atan2(accelXRaw, accelYRaw) + math.pi)`. -/
noncomputable def accelZAngle (accelRaw : Fin 3 → ℤ) : ℝ :=
  degrees (atan2 (accelRaw 0) (accelRaw 1) + Real.pi)

/-- The raw accelerometer reading x: 0, y: 0, z: 1000 of the tilt scenario
of the spec. -/
def accelScenarioRaw : Fin 3 → ℤ := fun i => if i = 2 then 1000 else 0

end AltIMU

namespace AltIMU

/-- Modelled from the spec (section 4.5): the update-step covariance
decrements with `P00`/`P01` snapshotted before any of the four assignments —
`P00 -= K0*P00; P01 -= K0*P01; P10 -= K1*P00; P11 -= K1*P01`, every
right-hand side reading the pre-update matrix.  Stated by the spec as the
ordering an implementation must realise; used below to compare against the
embedded source. -/
def kalmanCovarianceUpdateSnapshot (P : KMat) (kal0 kal1 : ℚ) : KMat :=
  ⟨P.p00 - kal0 * P.p00, P.p01 - kal0 * P.p01,
   P.p10 - kal1 * P.p00, P.p11 - kal1 * P.p01⟩

end AltIMU

/-!
## Theorems

Helper frame lemmas first, then one theorem per claim (with its witness or
counterexample where required).
-/

namespace AltIMU

/-- Frame property of the per-axis Kalman update: it never touches the
complementary-filter angles or the one-shot seeding flag. -/
theorem calculateKalmanAngle_frame (s : AltIMUState) (ref : ℕ)
    (a : Fin 3 → Option ℚ) (ax : Fin 3) (dt : ℚ) :
    (calculateKalmanAngle s ref a ax dt).1.complementaryAngles = s.complementaryAngles
    ∧ (calculateKalmanAngle s ref a ax dt).1.initFiltersFromAccel = s.initFiltersFromAccel := by
  unfold calculateKalmanAngle
  rcases a ax with _ | acc <;> rcases h : s.kalmanAngles ax with _ | ang <;> simp [h]

/-- Equation form of `calculateKalmanAngle_frame`, convenient after a `split`. -/
theorem calculateKalmanAngle_frameEq {s s' : AltIMUState} {ref : ℕ}
    {a : Fin 3 → Option ℚ} {ax : Fin 3} {dt : ℚ} {r : Except PyErr Unit}
    (h : calculateKalmanAngle s ref a ax dt = (s', r)) :
    s'.complementaryAngles = s.complementaryAngles
    ∧ s'.initFiltersFromAccel = s.initFiltersFromAccel := by
  have hf := calculateKalmanAngle_frame s ref a ax dt
  rw [h] at hf
  exact hf

/-- Frame property of the Kalman filter body: on every control path it leaves
the complementary-filter angles and the one-shot seeding flag unchanged. -/
theorem kalmanBody_frame (s : AltIMUState) (g : Fin 3 → ℤ)
    (a : Fin 3 → Option ℚ) (dt : ℚ) :
    (kalmanBody s g a dt).1.complementaryAngles = s.complementaryAngles
    ∧ (kalmanBody s g a dt).1.initFiltersFromAccel = s.initFiltersFromAccel := by
  unfold kalmanBody
  dsimp only
  split
  · exact ⟨rfl, rfl⟩
  split
  · exact ⟨rfl, rfl⟩
  split
  · exact ⟨rfl, rfl⟩
  split
  next s2 e heq1 =>
    have h1 := calculateKalmanAngle_frameEq heq1
    simpa using h1
  next s2 u1 heq1 =>
    have h1 := calculateKalmanAngle_frameEq heq1
    split
    next s3 e heq2 =>
      have h2 := calculateKalmanAngle_frameEq heq2
      simp only [h2.1, h2.2] at *
      simpa using h1
    next s3 u2 heq2 =>
      have h2 := calculateKalmanAngle_frameEq heq2
      split
      next s4 e heq3 =>
        have h3 := calculateKalmanAngle_frameEq heq3
        simp only [h3.1, h3.2, h2.1, h2.2] at *
        simpa using h1
      next s4 u3 heq3 =>
        have h3 := calculateKalmanAngle_frameEq heq3
        simp only [h3.1, h3.2, h2.1, h2.2] at *
        simpa using h1

/-- C1.  The claim states that the `P10`/`P11` decrements of the Kalman
update use the values of `P00`/`P01` captured before any of the four
covariance assignments.  The source instead decrements `P00` and `P01` first
and then reads the decremented values: at covariance `P = [1, 1, 1, 1]`,
angle estimate 0, bias 0, tilt measurement 1 and `deltaT = 0` (so the
predict step is the identity and the gains are `kal0 = kal1 = 1/(1 + R_ANGLE)
= 100/101`), the source produces `P10 = P11 = 10101/10201`, while the
snapshot ordering required by the claim produces `P10 = P11 = 1/101`. -/
theorem kalmanUpdate_covariance_order_bug :
    ((calculateKalmanAngle { AltIMU.init with heap := [⟨1, 1, 1, 1⟩] } 0
        (fun _ => some 1) 0 0).1.heap.getD 0 ⟨0, 0, 0, 0⟩
      = ⟨1/101, 1/101, 10101/10201, 10101/10201⟩)
    ∧ kalmanCovarianceUpdateSnapshot ⟨1, 1, 1, 1⟩ (100/101) (100/101)
      = ⟨1/101, 1/101, 1/101, 1/101⟩
    ∧ ((calculateKalmanAngle { AltIMU.init with heap := [⟨1, 1, 1, 1⟩] } 0
        (fun _ => some 1) 0 0).1.heap.getD 0 ⟨0, 0, 0, 0⟩
      ≠ kalmanCovarianceUpdateSnapshot ⟨1, 1, 1, 1⟩ (100/101) (100/101)) := by
  refine ⟨?_, ?_, ?_⟩ <;>
    norm_num [calculateKalmanAngle, AltIMU.init, kalmanCovarianceUpdateSnapshot,
      Q_ANGLE, Q_GYRO, R_ANGLE, KMat.mk.injEq]

/-- C2.  The claim states that the per-axis Kalman covariance matrices are
independent: updating axis x must leave `kalmanYP` and `kalmanZP` unchanged.
In the source, `__init__` binds `kalmanXP`, `kalmanYP` and `kalmanZP` to one
shared list object, so the x-axis update `_calculateKalmanAngle(self.kalmanXP,
[1, 1, 1], 0, 1.0)` on a fresh object also changes the matrix read through
`kalmanYP`. -/
theorem kalmanCovariance_axis_aliasing_bug :
    (AltIMU.init.kalmanXPRef = AltIMU.init.kalmanYPRef
      ∧ AltIMU.init.kalmanYPRef = AltIMU.init.kalmanZPRef)
    ∧ ((calculateKalmanAngle AltIMU.init AltIMU.init.kalmanXPRef
          (fun _ => some 1) 0 1).1.heap.getD
        (calculateKalmanAngle AltIMU.init AltIMU.init.kalmanXPRef
          (fun _ => some 1) 0 1).1.kalmanYPRef ⟨0, 0, 0, 0⟩
      ≠ AltIMU.init.heap.getD AltIMU.init.kalmanYPRef ⟨0, 0, 0, 0⟩) := by
  refine ⟨⟨rfl, rfl⟩, ?_⟩
  norm_num [calculateKalmanAngle, AltIMU.init, Q_ANGLE, Q_GYRO, R_ANGLE, KMat.mk.injEq]

/-- C3, counterexample.  On a fresh (never enabled) object, both filters
return the all-absent vector with NO error, refuting the claim that they
fail with a `NotEnabled` error before the sensors are enabled. -/
theorem filtersBeforeEnable_noError_counterexample :
    getComplementaryAngles AltIMU.init (fun _ => 0) (fun _ => some 1) (1/20)
      = (AltIMU.init, .ok fun _ => none)
    ∧ getKalmanAngles AltIMU.init (fun _ => 0) (fun _ => some 1) (1/20)
      = (AltIMU.init, .ok fun _ => none) :=
  ⟨rfl, rfl⟩

/-- C3, amended.  Invoking either filter before both underlying sensors are
enabled does not fail: it returns the all-absent vector `(None, None, None)`
— the absent no-opinion result — and leaves the state untouched. -/
theorem filtersBeforeEnable_return_absent (s : AltIMUState)
    (h : s.accelerometer = false ∨ s.gyroscope = false)
    (gyrRaw : Fin 3 → ℤ) (accelAngles : Fin 3 → Option ℚ) (dt : ℚ) :
    getComplementaryAngles s gyrRaw accelAngles dt = (s, .ok fun _ => none)
    ∧ getKalmanAngles s gyrRaw accelAngles dt = (s, .ok fun _ => none) := by
  rcases h with h | h <;> simp [getComplementaryAngles, getKalmanAngles, h]

/-- Witness for `filtersBeforeEnable_return_absent` at the fresh object. -/
theorem filtersBeforeEnable_return_absent_witness :
    (AltIMU.init.accelerometer = false ∨ AltIMU.init.gyroscope = false)
    ∧ (getComplementaryAngles AltIMU.init (fun _ => 0) (fun _ => some 1) (1/20)
        = (AltIMU.init, .ok fun _ => none)
      ∧ getKalmanAngles AltIMU.init (fun _ => 0) (fun _ => some 1) (1/20)
        = (AltIMU.init, .ok fun _ => none)) :=
  ⟨Or.inl rfl,
    filtersBeforeEnable_return_absent AltIMU.init (Or.inl rfl)
      (fun _ => 0) (fun _ => some 1) (1/20)⟩

/-- C4.  The claim states that a non-first complementary-filter call updates
each stored angle to `α * (angle + r * Δt) + (1 − α) * a` and returns it.
The filter body references the undefined name `accAngles` (the local variable
is `accelAngles`), so every call that reaches the blend raises a `NameError`
and the stored angles are never updated; only the one-shot accelerometer
seeding (which does work, and is shown in the first conjunct) survives. -/
theorem complementaryFilter_nameError_bug :
    (getComplementaryAngles (enable AltIMU.init true true true)
        (fun _ => 0) (fun _ => some 180) (1/20)
      = ({ enable AltIMU.init true true true with
            complementaryAngles := fun _ => some 180,
            initFiltersFromAccel := false },
         .error (.nameError ("accAngles"))))
    ∧ (getComplementaryAngles
        { enable AltIMU.init true true true with initFiltersFromAccel := false }
        (fun _ => 0) (fun _ => some 180) (1/20)
      = ({ enable AltIMU.init true true true with initFiltersFromAccel := false },
         .error (.nameError ("accAngles")))) :=
  ⟨rfl, rfl⟩

/-- C5.  The claim states that an absent y rate leaves the y angle unchanged
and returns it while x and z update normally.  The comprehension of
`trackGyroAngles` tests `gyrRates is None` on the whole tuple instead of
`gyrRates[i]`, so the absent y rate reaches `None * deltaT`: the call raises
a `TypeError` and NO axis is updated (here: calibrated angles `[1, 2, 3]`,
raw rate 100 on x and z, y not requested, `deltaT = 1/5000`). -/
theorem trackGyroAngles_absentY_typeError_bug :
    trackGyroAngles (calibrateGyroAngles (enable AltIMU.init true true true) 1 2 3)
        (fun _ => 100) true false true (1/5000)
      = (calibrateGyroAngles (enable AltIMU.init true true true) 1 2 3,
         .error .typeError) := by
  norm_num [trackGyroAngles, trackStep, gyrRatesIsNone, getGyroRotationRates,
    getSensorRaw, calibrateGyroAngles, enable, AltIMU.init, GYRO_GAIN,
    Bind.bind, Except.bind]

/-- C6.  The tilt estimator computes
`angleX = degrees(atan2(accel.y, accel.z) + pi)`,
`angleY = degrees(atan2(accel.x, accel.z) + pi)`,
`angleZ = degrees(atan2(accel.x, accel.y) + pi)`; `atan2 0 0 = 0`, and on the
raw input x: 0, y: 0, z: 1000 all three angles are exactly 180 degrees. -/
theorem accelerometerAngles_formula_and_scenario :
    (∀ raw : Fin 3 → ℤ,
      accelXAngle raw = degrees (atan2 (raw 1) (raw 2) + Real.pi)
      ∧ accelYAngle raw = degrees (atan2 (raw 0) (raw 2) + Real.pi)
      ∧ accelZAngle raw = degrees (atan2 (raw 0) (raw 1) + Real.pi))
    ∧ atan2 0 0 = 0
    ∧ accelXAngle accelScenarioRaw = 180
    ∧ accelYAngle accelScenarioRaw = 180
    ∧ accelZAngle accelScenarioRaw = 180 := by
  have hz : atan2 0 0 = 0 := by norm_num [atan2]
  have h1000 : atan2 0 1000 = 0 := by norm_num [atan2, Real.arctan_zero]
  have hdeg : degrees Real.pi = 180 := by
    rw [degrees]
    field_simp
  refine ⟨fun raw => ⟨rfl, rfl, rfl⟩, hz, ?_, ?_, ?_⟩ <;>
    simp [accelXAngle, accelYAngle, accelZAngle, accelScenarioRaw, hz, h1000, hdeg]

/-- C7.  Calibration reset: for every prior state (any previously accumulated
angles), seed and present rates, `calibrateGyroAngles(seed)` followed by one
`trackGyroAngles` call yields exactly `seed + rate * deltaT` on each axis,
where `rate = raw * GYRO_GAIN` is the angular rate delivered by
`getGyroRotationRates`. -/
theorem trackGyro_calibration_reset (s : AltIMUState) (h : s.gyroscope = true)
    (sx sy sz : ℚ) (raw : Fin 3 → ℤ) (dt : ℚ) :
    trackGyroAngles (calibrateGyroAngles s sx sy sz) raw true true true dt
      = ({ s with gyrAngles := [sx + (raw 0 : ℚ) * GYRO_GAIN * dt,
                                sy + (raw 1 : ℚ) * GYRO_GAIN * dt,
                                sz + (raw 2 : ℚ) * GYRO_GAIN * dt] },
         .ok [sx + (raw 0 : ℚ) * GYRO_GAIN * dt,
              sy + (raw 1 : ℚ) * GYRO_GAIN * dt,
              sz + (raw 2 : ℚ) * GYRO_GAIN * dt]) := by
  simp [trackGyroAngles, calibrateGyroAngles, getGyroRotationRates, getSensorRaw,
    trackStep, gyrRatesIsNone, h, Bind.bind, Except.bind, Pure.pure, Except.pure]

/-- Witness for `trackGyro_calibration_reset`: a gyroscope-enabled state with
previously accumulated garbage discarded by the calibration to `[1, 2, 3]`. -/
theorem trackGyro_calibration_reset_witness :
    ({ AltIMU.init with gyroscope := true } : AltIMUState).gyroscope = true
    ∧ trackGyroAngles
        (calibrateGyroAngles { AltIMU.init with gyroscope := true } 1 2 3)
        (fun _ => 100) true true true (1/5000)
      = ({ { AltIMU.init with gyroscope := true } with
            gyrAngles := [1 + ((100 : ℤ) : ℚ) * GYRO_GAIN * (1/5000),
                          2 + ((100 : ℤ) : ℚ) * GYRO_GAIN * (1/5000),
                          3 + ((100 : ℤ) : ℚ) * GYRO_GAIN * (1/5000)] },
         .ok [1 + ((100 : ℤ) : ℚ) * GYRO_GAIN * (1/5000),
              2 + ((100 : ℤ) : ℚ) * GYRO_GAIN * (1/5000),
              3 + ((100 : ℤ) : ℚ) * GYRO_GAIN * (1/5000)]) :=
  ⟨rfl, trackGyro_calibration_reset { AltIMU.init with gyroscope := true } rfl
    1 2 3 (fun _ => 100) (1/5000)⟩

/-- C8.  Integration additivity from calibration seed 0: at constant raw rate,
two `trackGyroAngles` calls with elapsed times `dt1` and `dt2` accumulate
exactly the same angles as one call with `dt1 + dt2` (exact rational
arithmetic). -/
theorem trackGyro_integration_additivity (s : AltIMUState)
    (h : s.gyroscope = true) (raw : Fin 3 → ℤ) (dt1 dt2 : ℚ) :
    (trackGyroAngles
        (trackGyroAngles (calibrateGyroAngles s 0 0 0) raw true true true dt1).1
        raw true true true dt2).1.gyrAngles
      = (trackGyroAngles (calibrateGyroAngles s 0 0 0) raw true true true
          (dt1 + dt2)).1.gyrAngles := by
  simp [trackGyroAngles, calibrateGyroAngles, getGyroRotationRates, getSensorRaw,
    trackStep, gyrRatesIsNone, h, Bind.bind, Except.bind, Pure.pure, Except.pure]
  ring_nf
  refine ⟨by ring_nf, by ring_nf, by ring_nf⟩

/-- Witness for `trackGyro_integration_additivity` at raw rate 100,
`dt1 = 1/7`, `dt2 = 1/3`. -/
theorem trackGyro_integration_additivity_witness :
    ({ AltIMU.init with gyroscope := true } : AltIMUState).gyroscope = true
    ∧ (trackGyroAngles
        (trackGyroAngles
          (calibrateGyroAngles { AltIMU.init with gyroscope := true } 0 0 0)
          (fun _ => 100) true true true (1/7)).1
        (fun _ => 100) true true true (1/3)).1.gyrAngles
      = (trackGyroAngles
          (calibrateGyroAngles { AltIMU.init with gyroscope := true } 0 0 0)
          (fun _ => 100) true true true (1/7 + 1/3)).1.gyrAngles :=
  ⟨rfl, trackGyro_integration_additivity { AltIMU.init with gyroscope := true }
    rfl (fun _ => 100) (1/7) (1/3)⟩

/-- C10.  The one-shot initialize-from-accelerometer flag is one shared piece
of state: on a fully enabled object with the flag set, a Kalman call behaves
exactly like the Kalman body run on the state seeded with the accelerometer
angles and the flag cleared, touching neither the complementary angles nor
(afterwards) the flag; a complementary call seeds only its own angles and
clears the flag; and once the flag is clear, a complementary call mutates
nothing (it raises the body NameError) and a Kalman call runs its body with
no seeding. -/
theorem initFiltersFromAccel_oneShot (s : AltIMUState) (ha : s.accelerometer = true)
    (hg : s.gyroscope = true) (hf : s.initFiltersFromAccel = true)
    (gyrRaw : Fin 3 → ℤ) (accelAngles : Fin 3 → Option ℚ) (dt : ℚ) :
    getKalmanAngles s gyrRaw accelAngles dt
      = kalmanBody { s with kalmanAngles := accelAngles, initFiltersFromAccel := false }
          gyrRaw accelAngles dt
    ∧ (getKalmanAngles s gyrRaw accelAngles dt).1.complementaryAngles
        = s.complementaryAngles
    ∧ (getKalmanAngles s gyrRaw accelAngles dt).1.initFiltersFromAccel = false
    ∧ getComplementaryAngles s gyrRaw accelAngles dt
      = ({ s with complementaryAngles := accelAngles, initFiltersFromAccel := false },
         .error (.nameError ("accAngles")))
    ∧ (∀ s2 : AltIMUState, s2.accelerometer = true → s2.gyroscope = true →
        s2.initFiltersFromAccel = false →
        getComplementaryAngles s2 gyrRaw accelAngles dt
          = (s2, .error (.nameError ("accAngles")))
        ∧ getKalmanAngles s2 gyrRaw accelAngles dt = kalmanBody s2 gyrRaw accelAngles dt) := by
  have hK : getKalmanAngles s gyrRaw accelAngles dt
      = kalmanBody { s with kalmanAngles := accelAngles, initFiltersFromAccel := false }
          gyrRaw accelAngles dt := by
    simp [getKalmanAngles, ha, hg, hf]
  refine ⟨hK, ?_, ?_, ?_, ?_⟩
  · rw [hK]
    simpa using (kalmanBody_frame
      { s with kalmanAngles := accelAngles, initFiltersFromAccel := false }
      gyrRaw accelAngles dt).1
  · rw [hK]
    simpa using (kalmanBody_frame
      { s with kalmanAngles := accelAngles, initFiltersFromAccel := false }
      gyrRaw accelAngles dt).2
  · simp [getComplementaryAngles, ha, hg, hf]
  · intro s2 ha2 hg2 hf2
    exact ⟨by simp [getComplementaryAngles, ha2, hg2, hf2],
           by simp [getKalmanAngles, ha2, hg2, hf2]⟩

/-- Witness for `initFiltersFromAccel_oneShot` on the freshly enabled object. -/
theorem initFiltersFromAccel_oneShot_witness :
    (enable AltIMU.init true true true).accelerometer = true
    ∧ (enable AltIMU.init true true true).gyroscope = true
    ∧ (enable AltIMU.init true true true).initFiltersFromAccel = true
    ∧ (getKalmanAngles (enable AltIMU.init true true true) (fun _ => 100)
        (fun _ => some 180) (1/20)).1.initFiltersFromAccel = false :=
  ⟨rfl, rfl, rfl,
    (initFiltersFromAccel_oneShot (enable AltIMU.init true true true) rfl rfl rfl
      (fun _ => 100) (fun _ => some 180) (1/20)).2.2.1⟩

end AltIMU

namespace VectorFunctions

/-- C9.  The claim states that `vectorCross`/`vectorDot` fail with the
InvalidInput exception whenever a component is missing or non-numeric.  The
component validation asserts a generator expression, which is always truthy,
so a missing component passes the check and the later arithmetic raises a
bare `TypeError` instead; the 3-element arity check and the success path on
fully numeric inputs do behave as claimed. -/
theorem vector_ops_validation_bug :
    vectorCross [none, some 1, some 2] [some 3, some 4, some 5] = .error .typeError
    ∧ vectorDot [none, some 1, some 2] [some 3, some 4, some 5] = .error .typeError
    ∧ (componentCheckIntended [none, some 1, some 2] = false
        ∧ componentCheck [none, some 1, some 2] [some 3, some 4, some 5] = true)
    ∧ vectorCross [some 1, some 2] [some 3, some 4, some 5]
        = .error (.exception ("Input vectors have to be 3-dimensional"))
    ∧ vectorDot [some 1, some 2] [some 3, some 4, some 5]
        = .error (.exception ("Input vectors have to be 3-dimensional"))
    ∧ vectorCross [some 1, some 2, some 3] [some 4, some 5, some 6] = .ok (-3, 6, -3)
    ∧ vectorDot [some 1, some 2, some 3] [some 4, some 5, some 6] = .ok 32 := by
  refine ⟨?_, ?_, ⟨rfl, rfl⟩, ?_, ?_, ?_, ?_⟩ <;>
    norm_num [vectorCross, vectorDot, componentCheck, pyMul, Bind.bind,
      Except.bind, Pure.pure, Except.pure]

end VectorFunctions
